import Mathlib

/-!
Shallow embedding of the freelan sample chat client
(src/samples/schat/schat.cpp) in Lean 4.

The program is a small peer-to-peer chat client driven by the fscp engine.
The embedding below translates, from the source:
  - the command dispatcher handle_read_line (lines 185-225), as a pure
    function from an input line to the list of server operations it issues
    and the console lines it prints;
  - the protocol event handlers on_hello, on_presentation,
    on_session_request, on_session, on_data (lines 87-183), as pure
    functions returning their accept decision, the asynchronous operations
    they issue and the console lines they print;
  - the shutdown plumbing: the process-wide stop_function hook (line 22),
    the signal handler (lines 27-45), the quit command (lines 216-219) and
    the end-of-input branch of handle_read_input (lines 241-244), as a
    small state machine over shutdown triggers;
  - the worker creation loop of main (lines 302-311);
  - the startup / exit-code skeleton of main (lines 249-349);
  - the table of console write sites and whether each holds output_mutex.
External collaborators (the boost resolver, the fscp engine, OpenSSL) are
parameters of the embedded functions: the embedding fixes only what the
sample's own code does with their results.
-/

/-- A resolved UDP endpoint (boost::asio::ip::udp::endpoint): a host
address and a port, as produced by the resolver. -/
structure EpType where
  host : String
  port : Nat
deriving DecidableEq

/-- Rendering of an endpoint as the stream insertion operator prints it. -/
def epStr (ep : EpType) : String :=
  ep.host ++ ":" ++ toString ep.port

/-- The asynchronous operations the sample issues on the fscp::server.
asyncGreet records the endpoint greeted and the endpoint the bound
on_hello_response continuation was constructed for (schat.cpp line 208
binds on_hello_response to the very endpoint being greeted). -/
inductive ServerOp where
  | asyncGreet (ep : EpType) (continuationEp : EpType)
  | asyncIntroduceTo (ep : EpType)
  | asyncRequestSession (ep : EpType)
  | asyncSendDataToAll (channel : Nat) (payload : String)
  | closeTransport
deriving DecidableEq

/-- The default channel fscp::CHANNEL_NUMBER_0. -/
def CHANNEL_NUMBER_0 : Nat := 0

/-- Observable effect of processing one input line: the server operations
issued, the lines written to std::cout and the lines written to
std::cerr, in order. -/
structure LineEffect where
  ops : List ServerOp
  stdoutLines : List String
  stderrLines : List String
deriving DecidableEq

/-- The effect that issues no operation and writes nothing. -/
def noEffect : LineEffect :=
  { ops := [], stdoutLines := [], stderrLines := [] }

/-- The character line[0] as C++ evaluates it: for a non-empty
std::string the first character, for the empty string the null character
(since C++11, operator[] at position size() returns a reference to a null
character). -/
def cppCharAt0 (line : String) : Char :=
  match line.data with
  | [] => Char.ofNat 0
  | c :: _ => c

/-- Whitespace as std::istream token extraction skips it. -/
def isCppSpace (c : Char) : Bool :=
  c == ' ' || c == '\t' || c == '\n' || c == '\r' || c == '\x0b' || c == '\x0c'

/-- Worker for tokenize: splits a character list into maximal runs of
non-whitespace characters, the accumulator holding the current token
reversed. -/
def tokenizeAux : List Char → List Char → List String
  | [], acc => if acc.isEmpty then [] else [String.mk acc.reverse]
  | c :: cs, acc =>
    if isCppSpace c then
      if acc.isEmpty then tokenizeAux cs []
      else String.mk acc.reverse :: tokenizeAux cs []
    else tokenizeAux cs (c :: acc)

/-- The sequence of whitespace-delimited tokens a chain of
std::istringstream extractions (iss, the operator at line 193 and 199)
yields from a string. -/
def tokenize (s : String) : List String :=
  tokenizeAux s.data []

/-- The resolver handed to the dispatcher: resolving a (host, service)
pair either yields an endpoint or throws, modelled as Except. The boost
resolver itself is an external collaborator; the dispatcher only reacts
to its outcome. -/
abbrev ResolverType := String → String → Except String EpType

/-- Translation of handle_read_line (schat.cpp lines 185-225).
If line[0] is the command marker, the first extracted token selects the
command: connect reads up to two further tokens (a failed extraction
leaves the default-constructed empty string, line 197-199), resolves
them, and on success issues one async_greet with on_hello_response bound
to the resolved endpoint plus one std::cout line, on failure writes one
std::cerr line; quit or exit issue server.close(); any other token does
nothing.  Otherwise the whole line is passed to
async_send_data_to_all on CHANNEL_NUMBER_0. -/
def handle_read_line (resolve : ResolverType) (line : String) : LineEffect :=
  if cppCharAt0 line == '!' then
    match tokenize (line.drop 1) with
    | [] => noEffect
    | command :: args =>
      if command == "connect" then
        let host := args.getD 0 ""
        let port := args.getD 1 ""
        match resolve host port with
        | Except.ok ep =>
          { ops := [ServerOp.asyncGreet ep ep],
            stdoutLines := ["Contacting " ++ epStr ep ++ "..."],
            stderrLines := [] }
        | Except.error msg =>
          { ops := [], stdoutLines := [],
            stderrLines := ["Unable to resolve the specified host/port: " ++ msg] }
      else if command == "quit" || command == "exit" then
        { ops := [ServerOp.closeTransport], stdoutLines := [], stderrLines := [] }
      else noEffect
  else
    { ops := [ServerOp.asyncSendDataToAll CHANNEL_NUMBER_0 line],
      stdoutLines := [], stderrLines := [] }

/-- Result of one protocol event handler: the accept/reject decision it
returns, the asynchronous operations it issues, and the std::cout lines
it writes. -/
structure HandlerResult where
  accept : Bool
  ops : List ServerOp
  stdoutLines : List String
deriving DecidableEq

/-- Translation of on_hello (schat.cpp lines 87-96): logs receipt, issues
async_introduce_to to the sender, returns default_accept. -/
def on_hello (sender : EpType) (default_accept : Bool) : HandlerResult :=
  { accept := default_accept,
    ops := [ServerOp.asyncIntroduceTo sender],
    stdoutLines := ["Received HELLO request from " ++ epStr sender] }

/-- Translation of on_presentation (schat.cpp lines 116-125): logs the
certificate subject and novelty, issues async_request_session to the
sender, and returns true unconditionally (the signature carries no
default-accept parameter at all). -/
def on_presentation (sender : EpType) (sigCertSubject : String) (is_new : Bool) : HandlerResult :=
  { accept := true,
    ops := [ServerOp.asyncRequestSession sender],
    stdoutLines := ["Received PRESENTATION from " ++ epStr sender ++ " (" ++ sigCertSubject
      ++ ") - " ++ (if is_new then "new" else "existing")] }

/-- Translation of on_session_request (schat.cpp lines 127-134): logs
receipt, ignores the proposed cipher list, returns default_accept. -/
def on_session_request (sender : EpType) (_calgs : List String) (default_accept : Bool) : HandlerResult :=
  { accept := default_accept,
    ops := [],
    stdoutLines := ["Received SESSION_REQUEST from " ++ epStr sender] }

/-- Translation of on_session (schat.cpp lines 136-143): logs receipt,
ignores the chosen cipher, returns default_accept. -/
def on_session (sender : EpType) (_calg : String) (default_accept : Bool) : HandlerResult :=
  { accept := default_accept,
    ops := [],
    stdoutLines := ["Received SESSION from " ++ epStr sender] }

/-- Translation of on_data (schat.cpp lines 172-183).  The body builds a
std::string from the raw buffer and streams it; the whole body sits in a
try/catch that swallows every exception, so a failed decode (modelled as
the none case) produces no console line and the handler returns normally
(the function is total).  A successful decode produces exactly one line. -/
def on_data (sender : EpType) (channel_number : Nat) (decoded : Option String) : List String :=
  match decoded with
  | some text => [epStr sender ++ " (" ++ toString channel_number ++ "): " ++ text]
  | none => []

/-- Translation of the worker creation loop of main (schat.cpp lines
302-311): THREAD_COUNT = boost::thread::hardware_concurrency() and the
loop runs create_thread once per i in [0, THREAD_COUNT).  The result is
the number of threads created, as a function of what
hardware_concurrency reported; the source applies no lower bound. -/
def createdThreads (hardware_concurrency : Nat) : Nat :=
  (List.range hardware_concurrency).length

/-- State of the shutdown plumbing in the POSIX stream-descriptor build
(the branch compiled when BOOST_ASIO_HAS_POSIX_STREAM_DESCRIPTOR holds):
whether the process-wide stop_function hook (schat.cpp line 22, assigned
at line 318 to close the stdin descriptor) is currently set, how many
times the input descriptor has been closed, and how many times
server.close() has been called on the transport. -/
structure ShutdownState where
  stop_function_set : Bool
  inputCloses : Nat
  transportCloses : Nat
deriving DecidableEq

/-- The state right after successful startup: stop_function assigned
(schat.cpp line 318), nothing closed yet. -/
def initShutdownState : ShutdownState :=
  { stop_function_set := true, inputCloses := 0, transportCloses := 0 }

/-- The three shutdown trigger sources named by the spec: an OS signal
(SIGTERM/SIGINT/SIGABRT entering signal_handler), a quit or exit command
reaching handle_read_line, and end-of-input (the error branch of
handle_read_input). -/
inductive ShutdownTrigger where
  | signal
  | quitCommand
  | endOfInput
deriving DecidableEq

/-- One trigger's effect, translated from the source.  signal_handler
(schat.cpp lines 27-45) invokes stop_function only if it is set — which
closes the input descriptor in this build — and clears it.  The quit
command (lines 216-219) calls server.close() directly, never consulting
stop_function.  The end-of-input branch (lines 241-244) likewise calls
server.close() directly. -/
def shutdownStep (s : ShutdownState) (t : ShutdownTrigger) : ShutdownState :=
  match t with
  | ShutdownTrigger.signal =>
    if s.stop_function_set then
      { s with inputCloses := s.inputCloses + 1, stop_function_set := false }
    else s
  | ShutdownTrigger.quitCommand =>
    { s with transportCloses := s.transportCloses + 1 }
  | ShutdownTrigger.endOfInput =>
    { s with transportCloses := s.transportCloses + 1 }

/-- Running a sequence of shutdown triggers from the post-startup state. -/
def runShutdownTriggers (ts : List ShutdownTrigger) : ShutdownState :=
  ts.foldl shutdownStep initShutdownState

/-- One write site to std::cout or std::cerr in schat.cpp, by the
function it sits in, with whether a mutex::scoped_lock on output_mutex
is held around it. -/
structure ConsoleWrite where
  site : String
  underOutputMutex : Bool
deriving DecidableEq

/-- Every console write site of schat.cpp with its lock status,
transcribed from the source: the handlers (lines 70-183) each take
mutex::scoped_lock lock(output_mutex) before writing; signal_handler
(line 36), register_signal_handlers (lines 51-63), the two writes inside
the connect branch of handle_read_line (lines 210 and 214), and the
writes in main (lines 257, 300, 306, 324, 339, 343) acquire no lock. -/
def consoleWrites : List ConsoleWrite :=
  [ { site := "signal_handler", underOutputMutex := false },
    { site := "register_signal_handlers", underOutputMutex := false },
    { site := "simple_handler", underOutputMutex := true },
    { site := "multiple_handler", underOutputMutex := true },
    { site := "on_hello", underOutputMutex := true },
    { site := "on_hello_response", underOutputMutex := true },
    { site := "on_presentation", underOutputMutex := true },
    { site := "on_session_request", underOutputMutex := true },
    { site := "on_session", underOutputMutex := true },
    { site := "on_session_failed", underOutputMutex := true },
    { site := "on_session_established", underOutputMutex := true },
    { site := "on_session_lost", underOutputMutex := true },
    { site := "on_data", underOutputMutex := true },
    { site := "handle_read_line.contacting", underOutputMutex := false },
    { site := "handle_read_line.resolve_error", underOutputMutex := false },
    { site := "main", underOutputMutex := false } ]

/-- The sites that belong to the asynchronous event handlers (the
callbacks registered on the server plus the two send-result handlers). -/
def handlerSites : List String :=
  [ "simple_handler", "multiple_handler", "on_hello", "on_hello_response",
    "on_presentation", "on_session_request", "on_session",
    "on_session_failed", "on_session_established", "on_session_lost",
    "on_data" ]

/-- Outcome of the startup steps of main that can throw, each modelled
as Except because the source wraps them in one try/catch: the
lexical_cast of the cipher algorithm (line 266), resolution of the
listen endpoint (lines 274-276), loading the certificate (line 278) and
the private key (line 279), and opening the server socket (line 289). -/
structure StartupEnv where
  parseCipherAlg : Except String Unit
  resolveListen : Except String EpType
  loadCertificate : Except String Unit
  loadPrivateKey : Except String Unit
  openSocket : EpType → Except String Unit

/-- Exit status EXIT_FAILURE as returned at schat.cpp lines 259 and 345. -/
def EXIT_FAILURE : Nat := 1

/-- Exit status EXIT_SUCCESS as returned at schat.cpp line 348. -/
def EXIT_SUCCESS : Nat := 0

/-- Outcome of a run of main: the exit status and whether the listening
socket was ever opened. -/
structure MainOutcome where
  exitCode : Nat
  socketOpened : Bool
deriving DecidableEq

/-- Translation of main (schat.cpp lines 249-349): argc is checked
against 7 before anything else (lines 255-260) and a mismatch returns
EXIT_FAILURE with no resource touched; then the startup steps run in
source order inside the try block, any exception reaching the catch
(lines 341-346) returns EXIT_FAILURE; when every step succeeds the run
ends at return EXIT_SUCCESS (line 348). -/
def mainRun (argc : Nat) (env : StartupEnv) : MainOutcome :=
  if argc ≠ 7 then { exitCode := EXIT_FAILURE, socketOpened := false }
  else
    match env.parseCipherAlg with
    | Except.error _ => { exitCode := EXIT_FAILURE, socketOpened := false }
    | Except.ok _ =>
      match env.resolveListen with
      | Except.error _ => { exitCode := EXIT_FAILURE, socketOpened := false }
      | Except.ok listen_ep =>
        match env.loadCertificate with
        | Except.error _ => { exitCode := EXIT_FAILURE, socketOpened := false }
        | Except.ok _ =>
          match env.loadPrivateKey with
          | Except.error _ => { exitCode := EXIT_FAILURE, socketOpened := false }
          | Except.ok _ =>
            match env.openSocket listen_ep with
            | Except.error _ => { exitCode := EXIT_FAILURE, socketOpened := false }
            | Except.ok _ => { exitCode := EXIT_SUCCESS, socketOpened := true }

/-- All throwing startup steps succeed: the success condition of the try
block of main. -/
def startupAllOk (env : StartupEnv) : Prop :=
  (∃ u, env.parseCipherAlg = Except.ok u) ∧
  (∃ ep, env.resolveListen = Except.ok ep) ∧
  (∃ u, env.loadCertificate = Except.ok u) ∧
  (∃ u, env.loadPrivateKey = Except.ok u) ∧
  (∀ ep, env.resolveListen = Except.ok ep → ∃ u, env.openSocket ep = Except.ok u)

/-- Sanity check: a plain chat line is broadcast. -/
example :
    handle_read_line (fun _ _ => Except.error "e") "hello" =
      { ops := [ServerOp.asyncSendDataToAll CHANNEL_NUMBER_0 "hello"],
        stdoutLines := [], stderrLines := [] } := by decide

/-- Sanity check: a quit command closes the transport. -/
example :
    handle_read_line (fun _ _ => Except.error "e") "!quit" =
      { ops := [ServerOp.closeTransport], stdoutLines := [], stderrLines := [] } := by decide

/-- Helper: the number of input-descriptor closes performed so far plus
one while the stop hook is still set; shutdownStep preserves it. -/
def hookPotential (s : ShutdownState) : Nat :=
  s.inputCloses + (if s.stop_function_set then 1 else 0)

lemma hookPotential_step (s : ShutdownState) (t : ShutdownTrigger) :
    hookPotential (shutdownStep s t) = hookPotential s := by
  cases t with
  | signal =>
    by_cases h : s.stop_function_set <;> simp [shutdownStep, hookPotential, h]
  | quitCommand => rfl
  | endOfInput => rfl

lemma hookPotential_fold (ts : List ShutdownTrigger) (s : ShutdownState) :
    hookPotential (ts.foldl shutdownStep s) = hookPotential s := by
  induction ts generalizing s with
  | nil => rfl
  | cons t ts ih => rw [List.foldl_cons, ih, hookPotential_step]

lemma transportCloses_fold (ts : List ShutdownTrigger) (s : ShutdownState) :
    (ts.foldl shutdownStep s).transportCloses =
      s.transportCloses + (ts.filter (fun t => t != ShutdownTrigger.signal)).length := by
  induction ts generalizing s with
  | nil => simp
  | cons t ts ih =>
    rw [List.foldl_cons, ih]
    cases t with
    | signal =>
      by_cases h : s.stop_function_set <;> simp [shutdownStep, h, List.filter]
    | quitCommand =>
      have hb : (ShutdownTrigger.quitCommand != ShutdownTrigger.signal) = true := rfl
      simp [shutdownStep, List.filter_cons, hb]
      omega
    | endOfInput =>
      have hb : (ShutdownTrigger.endOfInput != ShutdownTrigger.signal) = true := rfl
      simp [shutdownStep, List.filter_cons, hb]
      omega

/-- C1 (counterexample): two quit commands in a row.  handle_read_line
calls server.close() directly on each quit without consulting or
clearing the stop hook, so the transport is closed twice and the stop
hook is still set afterwards — the second shutdown trigger is not a
no-op and the hook was not the thing invoked. -/
theorem C1_stop_hook_counterexample :
    runShutdownTriggers [ShutdownTrigger.quitCommand, ShutdownTrigger.quitCommand] =
      { stop_function_set := true, inputCloses := 0, transportCloses := 2 } ∧
    (runShutdownTriggers [ShutdownTrigger.quitCommand, ShutdownTrigger.quitCommand]).transportCloses ≠ 1 := by
  decide

/-- C1 (amended): the stop hook is assigned after successful startup and
is invoked only by the OS-signal path, which clears it immediately, so
the input source is closed at most once over any sequence of shutdown
triggers; the quit command and end-of-input do not go through the hook
but call server.close() directly, once per occurrence, so the transport
is closed exactly as many times as quit/end-of-input triggers fire (in
particular a repeated quit closes it again and is not a no-op). -/
theorem C1_stop_hook_amended (ts : List ShutdownTrigger) :
    (runShutdownTriggers ts).inputCloses ≤ 1 ∧
    (runShutdownTriggers ts).transportCloses =
      (ts.filter (fun t => t != ShutdownTrigger.signal)).length := by
  constructor
  · have h := hookPotential_fold ts initShutdownState
    have hle : (runShutdownTriggers ts).inputCloses ≤
        hookPotential (ts.foldl shutdownStep initShutdownState) :=
      Nat.le_add_right _ _
    have h1 : hookPotential initShutdownState = 1 := rfl
    calc (runShutdownTriggers ts).inputCloses
        ≤ hookPotential (ts.foldl shutdownStep initShutdownState) := hle
      _ = hookPotential initShutdownState := h
      _ = 1 := h1
  · have h := transportCloses_fold ts initShutdownState
    simpa [runShutdownTriggers, initShutdownState] using h

/-- C2: on_hello, on_session_request and on_session each return exactly
the caller-supplied default_accept, for either value of it; and
on_presentation returns true for every input and issues exactly one
async_request_session to the sender. -/
theorem C2_decision_defaults (sender : EpType) (subj : String) (calgs : List String)
    (calg : String) (is_new d : Bool) :
    (on_hello sender d).accept = d ∧
    (on_session_request sender calgs d).accept = d ∧
    (on_session sender calg d).accept = d ∧
    (on_presentation sender subj is_new).accept = true ∧
    (on_presentation sender subj is_new).ops = [ServerOp.asyncRequestSession sender] :=
  ⟨rfl, rfl, rfl, rfl, rfl⟩

/-- C3 (counterexample): the empty input line is not ignored.  Because
line[0] on an empty std::string is the null character and not the
command marker, the empty line takes the broadcast branch and issues
async_send_data_to_all with an empty payload. -/
theorem C3_empty_line_counterexample :
    handle_read_line (fun _ _ => Except.error "e") "" =
      { ops := [ServerOp.asyncSendDataToAll CHANNEL_NUMBER_0 ""],
        stdoutLines := [], stderrLines := [] } ∧
    handle_read_line (fun _ _ => Except.error "e") "" ≠ noEffect := by
  decide

/-- Helper: the empty line is broadcast as an empty payload, whatever
the resolver is. -/
lemma handle_read_line_empty (resolve : ResolverType) :
    handle_read_line resolve "" =
      { ops := [ServerOp.asyncSendDataToAll CHANNEL_NUMBER_0 ""],
        stdoutLines := [], stderrLines := [] } := rfl

/-- C3 (amended): a line that starts with the command marker but whose
first token is not connect, quit or exit (including a bare marker with
no token at all) produces no operation and no console output; an empty
line, however, is not ignored: it falls through to the broadcast branch
and issues one async_send_data_to_all with the empty payload. -/
theorem C3_unrecognized_command_amended (resolve : ResolverType) (line : String)
    (hbang : cppCharAt0 line = '!')
    (hcmd : ∀ command args, tokenize (line.drop 1) = command :: args →
      command ≠ "connect" ∧ command ≠ "quit" ∧ command ≠ "exit") :
    handle_read_line resolve line = noEffect ∧
    handle_read_line resolve "" =
      { ops := [ServerOp.asyncSendDataToAll CHANNEL_NUMBER_0 ""],
        stdoutLines := [], stderrLines := [] } := by
  refine ⟨?_, handle_read_line_empty resolve⟩
  unfold handle_read_line
  rw [hbang]
  cases htok : tokenize (line.drop 1) with
  | nil => simp [htok]
  | cons command args =>
    obtain ⟨h1, h2, h3⟩ := hcmd command args htok
    simp [htok, h1, h2, h3]

/-- Witness for C3 at the concrete line with an unrecognized command. -/
theorem C3_unrecognized_command_witness :
    handle_read_line (fun _ _ => Except.error "e") "!foo bar" = noEffect ∧
    handle_read_line (fun _ _ => Except.error "e") "" =
      { ops := [ServerOp.asyncSendDataToAll CHANNEL_NUMBER_0 ""],
        stdoutLines := [], stderrLines := [] } :=
  C3_unrecognized_command_amended (fun _ _ => Except.error "e") "!foo bar"
    (by decide)
    (by
      intro command args h
      rw [show tokenize ("!foo bar".drop 1) = ["foo", "bar"] from by decide] at h
      injection h with hc ha
      subst hc
      exact ⟨by decide, by decide, by decide⟩)

/-- C4: every non-empty line whose first character is not the command
marker is handed, whole, to exactly one async_send_data_to_all on
CHANNEL_NUMBER_0, with no other operation and no console output. -/
theorem C4_broadcast (resolve : ResolverType) (line : String)
    (_hne : line ≠ "") (hmark : cppCharAt0 line ≠ '!') :
    handle_read_line resolve line =
      { ops := [ServerOp.asyncSendDataToAll CHANNEL_NUMBER_0 line],
        stdoutLines := [], stderrLines := [] } := by
  simp [handle_read_line, hmark]

/-- Witness for C4 at a concrete chat line. -/
theorem C4_broadcast_witness :
    handle_read_line (fun _ _ => Except.error "e") "hello world" =
      { ops := [ServerOp.asyncSendDataToAll CHANNEL_NUMBER_0 "hello world"],
        stdoutLines := [], stderrLines := [] } :=
  C4_broadcast (fun _ _ => Except.error "e") "hello world" (by decide) (by decide)

/-- C5: an inbound payload whose decode fails produces no console line,
and the handler returns normally (on_data is a total function, the
try/catch of the source swallowing the exception). -/
theorem C5_on_data_swallows_decode_failure (sender : EpType) (channel : Nat) :
    on_data sender channel none = [] := rfl

/-- C6 (counterexample): when hardware_concurrency reports 0 the loop
creates 0 worker threads, not the 1 the claim requires — the source
applies no minimum. -/
theorem C6_thread_count_counterexample :
    createdThreads 0 = 0 ∧ createdThreads 0 ≠ 1 := by decide

/-- C6 (amended): the worker pool is sized to exactly the number of
reported hardware execution units, with no minimum applied: for every
reported h the loop creates h threads, including 0 threads when h is 0. -/
theorem C6_thread_count_amended (h : Nat) : createdThreads h = h :=
  List.length_range h

/-- C7: for a line parsing as the connect command with a host and a
port, the dispatcher resolves them and: on success issues exactly one
async_greet to the resolved endpoint whose bound continuation invokes
on_hello_response for that same endpoint, plus one console line; on
failure writes the error to std::cerr, issues no operation, and returns
normally. -/
theorem C7_connect (resolve : ResolverType) (line host port : String)
    (hbang : cppCharAt0 line = '!')
    (htok : tokenize (line.drop 1) = ["connect", host, port]) :
    handle_read_line resolve line =
      match resolve host port with
      | Except.ok ep =>
        { ops := [ServerOp.asyncGreet ep ep],
          stdoutLines := ["Contacting " ++ epStr ep ++ "..."],
          stderrLines := [] }
      | Except.error msg =>
        { ops := [], stdoutLines := [],
          stderrLines := ["Unable to resolve the specified host/port: " ++ msg] } := by
  unfold handle_read_line
  rw [hbang, htok]
  cases hres : resolve host port <;> simp [hres]

/-- Witness for C7 at a concrete connect line and a resolver that
succeeds. -/
theorem C7_connect_witness :
    handle_read_line (fun _ _ => Except.ok { host := "127.0.0.1", port := 12000 })
        "!connect localhost 12000" =
      { ops := [ServerOp.asyncGreet { host := "127.0.0.1", port := 12000 }
          { host := "127.0.0.1", port := 12000 }],
        stdoutLines := ["Contacting " ++ epStr { host := "127.0.0.1", port := 12000 } ++ "..."],
        stderrLines := [] } :=
  C7_connect (fun _ _ => Except.ok { host := "127.0.0.1", port := 12000 })
    "!connect localhost 12000" "localhost" "12000" (by decide) (by decide)

/-- C8 (counterexample): not every console write holds output_mutex.
The std::cout write in the connect branch of handle_read_line (schat.cpp
line 210) runs on a worker thread with no scoped_lock around it. -/
theorem C8_mutex_counterexample :
    ConsoleWrite.mk "handle_read_line.contacting" false ∈ consoleWrites ∧
    ¬ (∀ w ∈ consoleWrites, w.underOutputMutex = true) := by decide

/-- C8 (amended): every console write in the asynchronous event
handlers holds the single process-wide output mutex, but there are
writes outside them — in particular the command dispatcher's writes in
handle_read_line — that do not hold it. -/
theorem C8_mutex_amended :
    (∀ w ∈ consoleWrites, w.site ∈ handlerSites → w.underOutputMutex = true) ∧
    (∃ w ∈ consoleWrites, w.underOutputMutex = false) := by decide

/-- C9: with an argument count other than seven (program name plus the
six positional arguments) main returns EXIT_FAILURE with the socket
never opened; any startup exception makes main return EXIT_FAILURE; and
when the argument count is right and every startup step succeeds the
run ends with EXIT_SUCCESS. -/
theorem C9_exit_codes (argc : Nat) (env : StartupEnv) :
    (argc ≠ 7 → mainRun argc env = { exitCode := EXIT_FAILURE, socketOpened := false }) ∧
    (¬ startupAllOk env → (mainRun argc env).exitCode = EXIT_FAILURE) ∧
    (argc = 7 → startupAllOk env →
      mainRun argc env = { exitCode := EXIT_SUCCESS, socketOpened := true }) := by
  refine ⟨fun h7 => ?_, fun hbad => ?_, fun h7 hok => ?_⟩
  · simp [mainRun, h7]
  · by_cases h7 : argc = 7
    · rcases hp : env.parseCipherAlg with e | u
      · simp [mainRun, h7, hp]
      rcases hr : env.resolveListen with e | ep
      · simp [mainRun, h7, hp, hr]
      rcases hc : env.loadCertificate with e | u2
      · simp [mainRun, h7, hp, hr, hc]
      rcases hk : env.loadPrivateKey with e | u3
      · simp [mainRun, h7, hp, hr, hc, hk]
      rcases ho : env.openSocket ep with e | u4
      · simp [mainRun, h7, hp, hr, hc, hk, ho]
      · exact absurd
          ⟨⟨u, hp⟩, ⟨ep, hr⟩, ⟨u2, hc⟩, ⟨u3, hk⟩,
            fun ep2 h2 => by
              rw [hr] at h2
              injection h2 with he
              subst he
              exact ⟨u4, ho⟩⟩
          hbad
    · simp [mainRun, h7]
  · obtain ⟨⟨u, hp⟩, ⟨ep, hr⟩, ⟨u2, hc⟩, ⟨u3, hk⟩, hop⟩ := hok
    obtain ⟨u4, ho⟩ := hop ep hr
    simp [mainRun, h7, hp, hr, hc, hk, ho]

/-- C10: a connect command with fewer than two following tokens hands
the missing host and/or port as empty strings to the resolver; when the
resolver fails on them, the dispatcher writes the resolution error to
std::cerr, issues no greet and no other operation, and returns
normally. -/
theorem C10_connect_missing_args (resolve : ResolverType) (line : String)
    (args : List String) (msg : String)
    (hbang : cppCharAt0 line = '!')
    (htok : tokenize (line.drop 1) = "connect" :: args)
    (_hshort : args.length < 2)
    (hres : resolve (args.getD 0 "") (args.getD 1 "") = Except.error msg) :
    handle_read_line resolve line =
      { ops := [], stdoutLines := [],
        stderrLines := ["Unable to resolve the specified host/port: " ++ msg] } := by
  unfold handle_read_line
  rw [hbang, htok]
  simp only [List.getD_eq_getElem?_getD] at hres
  simp [hres]

/-- Witness for C10 at the bare line consisting of the connect command
alone, with a resolver that fails on the empty host and port. -/
theorem C10_connect_missing_args_witness :
    handle_read_line (fun _ _ => Except.error "Host not found") "!connect" =
      { ops := [], stdoutLines := [],
        stderrLines := ["Unable to resolve the specified host/port: Host not found"] } :=
  C10_connect_missing_args (fun _ _ => Except.error "Host not found") "!connect" [] "Host not found"
    (by decide) (by decide) (by decide) rfl
